import Mathlib

/-!
Verification of the pivorm query-expression engine (pivorm.py).

The development shallowly embeds the parts of pivorm.py that the claims
concern: the expression-tree nodes and their operator methods, the SQL
rendering visitor (including its in-place requoting of string values),
schema reflection (field discovery through `inspect.getmembers`, which
yields class attributes sorted by attribute name), CREATE-statement
assembly, and the `Select` cursor (`all`, `filter`, `get`, and the
foreign-key row reconstruction `get_fk_table`).

The sqlite storage collaborator is out of scope per the spec; it is
modelled as an opaque function from SQL text to a list of raw rows.
General recursion through foreign-key dereference (filter calls
get_fk_table which calls filter on the related model) is embedded with a
fuel parameter; exhausting fuel is Python's RecursionError.  Fallible
paths return `Except String`, carrying the Python exception raised.
-/

namespace Pivorm

/-- Python run-time values as they appear in this library: integers,
strings, `None`, and `Table` model instances (a class name plus the
instance's `_data` mapping, kept as an insertion-ordered association
list exactly like a Python dict). -/
inductive PyVal where
  | int (n : Int)
  | str (s : String)
  | noneV
  | inst (cls : String) (data : List (String × PyVal))

/-- Expression-tree nodes, the `Node` class hierarchy of pivorm.py:
`BaseField` (bound to a model class and attribute name), `Value`
(wrapping a plain Python scalar), `Expression` (binary operator node),
and `Value` wrapping another node object (which `Expression.__init__`
produces when a non-`Expression` node is used as a right operand). -/
inductive Node where
  | field (cls name : String)
  | value (v : PyVal)
  | wrapped (n : Node)
  | expr (lhs : Node) (op : String) (rhs : Node)

/-- Python `str()` on the values above.  `str` of a model instance is
CPython's default object repr (it carries a memory address, which has no
shallow-embedding counterpart and is unreachable from the claims). -/
def pyStr : PyVal → String
  | PyVal.int n => toString n
  | PyVal.str s => s
  | PyVal.noneV => "None"
  | PyVal.inst cls _ => "<" ++ cls ++ " object>"

/-- Python `str()` of a node object stored inside a `Value`.
`BaseField.__repr__` is the qualified `ClassName.attr`; other node
objects fall back to the default object repr. -/
def nodeRepr : Node → String
  | Node.field cls name => cls ++ "." ++ name
  | _ => "<object>"

/-- `SqlVisitor`: walks a tree appending to the accumulated `self.sql`
string and returns the tree as it stands after the walk.  Faithful to
pivorm.py lines 262-279, including the side effect of `visit_value`: a
string value is overwritten with its single-quoted form
(`element.val = f"'{element.val}'"`) before being appended, so the
returned tree can differ from the input tree. -/
def SqlVisitor.visit : String → Node → String × Node
  | sql, Node.field cls name => (sql ++ cls ++ "." ++ name, Node.field cls name)
  | sql, Node.value (PyVal.str s) =>
      (sql ++ ("'" ++ s ++ "'"), Node.value (PyVal.str ("'" ++ s ++ "'")))
  | sql, Node.value v => (sql ++ pyStr v, Node.value v)
  | sql, Node.wrapped n => (sql ++ nodeRepr n, Node.wrapped n)
  | sql, Node.expr l op r =>
      let p1 := SqlVisitor.visit (sql ++ "(") l
      let p2 := SqlVisitor.visit (p1.1 ++ op) r
      (p2.1 ++ ")", Node.expr p1.2 op p2.2)

/-- Rendering an expression with a fresh visitor: the final `self.sql`. -/
def render (e : Node) : String := (SqlVisitor.visit "" e).1

/-- A Python object used as the right operand of a comparison: either a
`Node` (field / expression) or a plain scalar. -/
inductive PyOperand where
  | node (n : Node)
  | raw (v : PyVal)

/-- `Expression.__init__` (pivorm.py lines 226-234): the left operand and
operator are stored as given; a right operand that is not an
`Expression` is wrapped in a `Value`. -/
def Expression.init (lhs : Node) (op : String) (rhs : PyOperand) : Node :=
  Node.expr lhs op
    (match rhs with
     | PyOperand.node (Node.expr l o r) => Node.expr l o r
     | PyOperand.node n => Node.wrapped n
     | PyOperand.raw v => Node.value v)

/-- `Node.__and__`: `Expression(self, " AND ", rhs)`. -/
def Node.andE (lhs rhs : Node) : Node :=
  Expression.init lhs " AND " (PyOperand.node rhs)

/-- `Node.__eq__` with a plain scalar right operand:
`Expression(self, " = ", rhs)`. -/
def Node.eqE (lhs : Node) (v : PyVal) : Node :=
  Expression.init lhs " = " (PyOperand.raw v)

/-- `Node.in_` (pivorm.py lines 177-180): the values are comma-joined,
parenthesized, and the resulting plain string becomes the right operand
of an `" IN "` expression (hence a string-valued `Value`). -/
def Node.inOp (lhs : Node) (rhs : List String) : Node :=
  Expression.init lhs " IN "
    (PyOperand.raw (PyVal.str ("(" ++ String.intercalate ", " rhs ++ ")")))

/-- `True` iff the tree has no string-valued `Value` leaf (the only kind
of leaf `visit_value` mutates). -/
def noStrLeaf : Node → Bool
  | Node.field _ _ => true
  | Node.value (PyVal.str _) => false
  | Node.value _ => true
  | Node.wrapped _ => true
  | Node.expr l _ r => noStrLeaf l && noStrLeaf r

/-- A declared `BaseField`: its bound attribute name, SQL type string and
the `unique` / `null` / `default` settings of `BaseField.__init__`. -/
structure FieldSpec where
  name : String
  type : String
  unique : Bool
  null : Bool
  default : Option PyVal

/-- A declared model class: its class name (`cls.__name__`), its declared
`BaseField` attributes and its declared `ForeignKey` attributes, both in
declaration order.  A `ForeignKey` stores the referenced model class
itself, which must already exist when the attribute is declared, so the
reference structure is a tree. -/
inductive Model where
  | mk (className : String) (fields : List FieldSpec)
       (fks : List (String × Model))

def Model.className : Model → String
  | Model.mk c _ _ => c

def Model.fieldsOf : Model → List FieldSpec
  | Model.mk _ f _ => f

def Model.fksOf : Model → List (String × Model)
  | Model.mk _ _ k => k

/-- Python `str.lower()` on the class name (ASCII class names). -/
def lowerString (s : String) : String := String.mk (s.data.map Char.toLower)

/-- `Table._get_name`: the class name lowercased. -/
def Model.getName (m : Model) : String := lowerString m.className

/-- One entry of `inspect.getmembers(cls)` that `_get_fields` and
`_get_create_sql` react to: a `BaseField` or a `ForeignKey` attribute. -/
inductive Member where
  | fieldM (f : FieldSpec)
  | fkM (name : String) (t : Model)

/-- The attribute name a member is listed under. -/
def Member.mname : Member → String
  | Member.fieldM f => f.name
  | Member.fkM n _ => n

/-- The field and foreign-key members of a class.  (The synthesized `id`
field is skipped by `_get_fields` through its `name != 'id'` guard, and
the other class attributes - `db`, `objects`, methods - match neither
`isinstance` test, so only these members matter.) -/
def membersOf (m : Model) : List Member :=
  m.fieldsOf.map Member.fieldM ++ m.fksOf.map (fun p => Member.fkM p.1 p.2)

/-- Python string comparison on character lists: lexicographic by code
point. -/
def charListLe : List Char → List Char → Bool
  | [], _ => true
  | _ :: _, [] => false
  | a :: as, b :: bs =>
      if a.toNat < b.toNat then true
      else if b.toNat < a.toNat then false
      else charListLe as bs

/-- Python `a <= b` on strings. -/
def strLeB (a b : String) : Bool := charListLe a.data b.data

/-- Insert into a sorted list, keeping an equal element after the ones
already present (the stable order Python's `sorted` produces). -/
def insertSorted (le : α → α → Bool) (x : α) : List α → List α
  | [] => [x]
  | y :: ys => if le x y then x :: y :: ys else y :: insertSorted le x ys

/-- Stable insertion sort by a boolean comparison. -/
def sortByB (le : α → α → Bool) : List α → List α
  | [] => []
  | x :: xs => insertSorted le x (sortByB le xs)

/-- `inspect.getmembers` returns class attributes sorted by attribute
name; this is the order every reflection loop in pivorm.py iterates in. -/
def sortMembers (l : List Member) : List Member :=
  sortByB (fun a b => strLeB a.mname b.mname) l

/-- The foreign keys of a model in the order `inspect.getmembers` lists
them (sorted by attribute name). -/
def sortedFks (m : Model) : List (String × Model) :=
  sortByB (fun a b => strLeB a.1 b.1) m.fksOf

/-- The column row `_get_fields` builds for one `BaseField`:
name, type, then `UNIQUE`, `NOT NULL`, `DEFAULT v` as the settings ask. -/
def fieldRow (f : FieldSpec) : List String :=
  [f.name, f.type]
    ++ (if f.unique then ["UNIQUE"] else [])
    ++ (if !f.null then ["NOT NULL"] else [])
    ++ (match f.default with
        | some v => ["DEFAULT " ++ pyStr v]
        | Option.none => [])

/-- `Table._get_fields` (pivorm.py lines 71-88): walk the members in
`getmembers` order; a `BaseField` contributes its column row, a
`ForeignKey` named `n` contributes the integer column `n_id`. -/
def Model.getFields (m : Model) : List (List String) :=
  (sortMembers (membersOf m)).map
    (fun mem =>
      match mem with
      | Member.fieldM f => fieldRow f
      | Member.fkM n _ => [n ++ "_id", "INTEGER"])

/-- `Table._get_create_sql` (pivorm.py lines 96-105): a leading
`id INTEGER PRIMARY KEY`, then `_get_fields`, then one trailing
`FOREIGN KEY` table constraint per `ForeignKey` member (the constraint
names the attribute, `name`, exactly as the source's f-string does). -/
def Model.getCreateSql (m : Model) : String :=
  let fields := [["id", "INTEGER PRIMARY KEY"]] ++ m.getFields
  let fields := fields ++ (sortMembers (membersOf m)).filterMap
    (fun mem =>
      match mem with
      | Member.fkM n t =>
          some ["FOREIGN KEY (" ++ n ++ ") REFERENCES " ++ t.getName ++ "(id)"]
      | Member.fieldM _ => Option.none)
  "CREATE TABLE IF NOT EXISTS " ++ m.getName ++ " ("
    ++ String.intercalate ", " (fields.map (String.intercalate " ")) ++ ")"

/-- The fields of a `Select` cursor (pivorm.py line 282-288) apart from
the storage collaborator `db`, which is passed separately: the target
model, the accumulated SQL text, the accumulated WHERE-clause text, and
the optional materialized result list (Python `None` or a list of model
instances). -/
structure SelectState where
  model : Model
  sql : String
  whereStr : String
  result : Option (List PyVal)

/-- The storage collaborator, specified only at its interface:
`execute(sql) -> rows`, each row a list of raw column values. -/
abbrev Db := String → List (List PyVal)

/-- `Model.objects`, the canonical unfiltered cursor created at model
declaration time: `Select(db, cls)` with `sql=""`, `where=""`,
`result=None`. -/
def objects (m : Model) : SelectState :=
  { model := m, sql := "", whereStr := "", result := Option.none }

/-- Python dict assignment `d[k] = v`: update in place if the key
exists, else append (insertion order preserved). -/
def upsert : List (String × PyVal) → String → PyVal → List (String × PyVal)
  | [], k, v => [(k, v)]
  | (k0, v0) :: rest, k, v =>
      if k0 = k then (k0, v) :: rest else (k0, v0) :: upsert rest k v

/-- `Table.__init__`: `_data` starts as the dict containing `id: None`,
then each keyword argument is assigned in order. -/
def initData (kwargs : List (String × PyVal)) : List (String × PyVal) :=
  kwargs.foldl (fun d kv => upsert d kv.1 kv.2) [("id", PyVal.noneV)]

/-- Constructing a model instance `cls(**kwargs)`. -/
def mkTableInstance (cls : String) (kwargs : List (String × PyVal)) : PyVal :=
  PyVal.inst cls (initData kwargs)

/-- Python `field.endswith("_id")`. -/
def endsWithId (s : String) : Bool :=
  match s.data.reverse with
  | 'd' :: 'i' :: '_' :: _ => true
  | _ => false

/-- Python `field[:-3]`. -/
def dropRight3 (s : String) : String :=
  String.mk (s.data.take (s.data.length - 3))

/-- `getattr(self.model, field)` when looking up a declared
`ForeignKey` attribute. -/
def lookupFk (m : Model) (n : String) : Option Model :=
  m.fksOf.lookup n

/-- The expression `fk.table.id == value` built inside `get_fk_table`:
the related model's bound `id` field compared to the raw column value. -/
def idEq (t : Model) (v : PyVal) : Node :=
  Node.eqE (Node.field t.className "id") v

/-- `select[0]`, i.e. `self.result[0]`, on the cursor a dereference
returned. -/
def headResult (s : SelectState) : Option PyVal :=
  match s.result with
  | some (x :: _) => some x
  | _ => Option.none

/-- `Select.get_fk_table` (pivorm.py lines 345-355) on the zipped
`(field, value)` pairs of one row.  A column whose name ends in `_id`
has the suffix stripped, the `ForeignKey` looked up on the model, and
its raw value replaced by `fk.table.objects.filter(fk.table.id ==
value)[0]`; the dereference callback is the embedded `Select.filter` of
the related model's fresh cursor.  Returns the reconstructed
`(name, value)` pairs together with the log of SQL statements the
dereferences executed; a Python exception aborts the loop. -/
def getFkRow
    (deref : Model → PyVal → (Except String (Option SelectState)) × List String)
    (m : Model) :
    List (String × PyVal) → (Except String (List (String × PyVal))) × List String
  | [] => (Except.ok [], [])
  | (f, v) :: rest =>
    if endsWithId f then
      let name := dropRight3 f
      match lookupFk m name with
      | Option.none =>
          (Except.error ("AttributeError: type object '" ++ m.className
            ++ "' has no usable ForeignKey attribute '" ++ name ++ "'"), [])
      | some t =>
        match deref t v with
        | (Except.error err, log) => (Except.error err, log)
        | (Except.ok Option.none, log) =>
            (Except.error "TypeError: 'NoneType' object is not subscriptable", log)
        | (Except.ok (some sel), log) =>
          match headResult sel with
          | Option.none => (Except.error "IndexError: list index out of range", log)
          | some inst =>
            match getFkRow deref m rest with
            | (Except.error err, log2) => (Except.error err, log ++ log2)
            | (Except.ok ps, log2) => (Except.ok ((name, inst) :: ps), log ++ log2)
    else
      match getFkRow deref m rest with
      | (Except.error err, log2) => (Except.error err, log2)
      | (Except.ok ps, log2) => (Except.ok ((f, v) :: ps), log2)

/-- The row loop shared by `Select.all` and `Select.filter`: each fetched
row is zipped with the projected column names, reconstructed through
`get_fk_table`, and turned into a model instance `self.model(**data)`. -/
def reconstructRows
    (deref : Model → PyVal → (Except String (Option SelectState)) × List String)
    (m : Model) (fieldsName : List String) (rows : List (List PyVal)) :
    (Except String (List PyVal)) × List String :=
  rows.foldl
    (fun acc row =>
      match acc with
      | (Except.error err, log) => (Except.error err, log)
      | (Except.ok insts, log) =>
        match getFkRow deref m (fieldsName.zip row) with
        | (Except.error err, log2) => (Except.error err, log ++ log2)
        | (Except.ok data, log2) =>
            (Except.ok (insts ++ [mkTableInstance m.className data]), log ++ log2))
    (Except.ok [], [])

/-- `fields_name`: `["id"]` followed by the first entry of each
`_get_fields` row (pivorm.py lines 295-298 and 310-314). -/
def fieldsNameOf (m : Model) : List String :=
  "id" :: m.getFields.map (fun r => r.headD "")

/-- The join loop of `Select.filter` (pivorm.py lines 321-323): for each
`ForeignKey` member, in `getmembers` order, append
` LEFT JOIN n ON table.n_id = n.id` to the accumulated SQL (the joined
table is named by the attribute, exactly as the source's f-string
does). -/
def addJoins (tbl : String) : String → List String → String
  | sql, [] => sql
  | sql, n :: rest =>
      addJoins tbl
        (sql ++ (" LEFT JOIN " ++ n ++ " ON " ++ tbl ++ "." ++ n ++ "_id = "
          ++ n ++ ".id")) rest

/-- The SQL assembly of `Select.filter` (pivorm.py lines 316-330): the
base `SELECT table.* FROM table`, the rendered expression, the joins,
and the WHERE clause - started fresh with ` WHERE ` when the cursor's
accumulated WHERE text is empty, otherwise extended with ` AND `.
Returns `(sql, where)` as stored on the produced cursor. -/
def filterAssemble (m : Model) (w0 : String) (e : Node) : String × String :=
  let sql0 := "SELECT " ++ m.getName ++ ".* FROM " ++ m.getName
  let rendered := render e
  let sql1 := addJoins m.getName sql0 ((sortedFks m).map (fun p => p.1))
  let w := if w0 = "" then " WHERE " ++ rendered else w0 ++ (" AND " ++ rendered)
  (sql1 ++ w, w)

/-- `Select.filter` (pivorm.py lines 309-337).  Fuel bounds the
recursion depth of foreign-key dereferencing (Python's recursion
limit).  Returns the Python return value - a new `Select` carrying the
assembled SQL, the WHERE text and the materialized results, or `None`
when no row matched - together with the list of SQL statements executed
against the storage collaborator, and an `Except.error` for a raised
exception. -/
def filterEngine : Nat → Db → SelectState → Node →
    (Except String (Option SelectState)) × List String
  | 0, _, _, _ =>
      (Except.error "RecursionError: maximum recursion depth exceeded", [])
  | Nat.succ fuel, db, s, e =>
    let m := s.model
    let fieldsName := fieldsNameOf m
    let pair := filterAssemble m s.whereStr e
    let rows := db pair.1
    match reconstructRows
        (fun t v => filterEngine fuel db (objects t) (idEq t v))
        m fieldsName rows with
    | (Except.error err, log) => (Except.error err, pair.1 :: log)
    | (Except.ok [], log) => (Except.ok Option.none, pair.1 :: log)
    | (Except.ok (i :: is), log) =>
        (Except.ok (some ⟨m, pair.1, pair.2, some (i :: is)⟩), pair.1 :: log)

/-- `Select.all` (pivorm.py lines 290-307).  A truthy `self.result`
(a non-empty materialized list) short-circuits: a new `Select` is built
from the same fields and nothing is executed.  Otherwise the plain
`SELECT table.* FROM table` (no joins, no WHERE) is executed and the
rows reconstructed; the produced cursor's WHERE text is the
constructor's default `""`, and `None` is returned when the table was
empty. -/
def allS (fuel : Nat) (db : Db) (s : SelectState) :
    (Except String (Option SelectState)) × List String :=
  match s.result with
  | some (x :: xs) =>
      (Except.ok (some ⟨s.model, s.sql, s.whereStr, some (x :: xs)⟩), [])
  | _ =>
    let m := s.model
    let fieldsName := fieldsNameOf m
    let sql := "SELECT " ++ m.getName ++ ".* FROM " ++ m.getName
    let rows := db sql
    match reconstructRows
        (fun t v => filterEngine fuel db (objects t) (idEq t v))
        m fieldsName rows with
    | (Except.error err, log) => (Except.error err, sql :: log)
    | (Except.ok [], log) => (Except.ok Option.none, sql :: log)
    | (Except.ok (i :: is), log) =>
        (Except.ok (some ⟨m, sql, "", some (i :: is)⟩), sql :: log)

/-- `Select.get` (pivorm.py lines 339-343): `select = self.filter(expression)`,
then `if not select.result: return None` and `return select[0]`.  When
`filter` matched no rows it returned `None`, so the attribute access
`select.result` raises `AttributeError` before the empty-signal branch
can run. -/
def getS (fuel : Nat) (db : Db) (s : SelectState) (e : Node) :
    (Except String (Option PyVal)) × List String :=
  match filterEngine fuel db s e with
  | (Except.error err, log) => (Except.error err, log)
  | (Except.ok Option.none, log) =>
      (Except.error "AttributeError: 'NoneType' object has no attribute 'result'",
        log)
  | (Except.ok (some sel), log) =>
    match sel.result with
    | some (x :: _) => (Except.ok (some x), log)
    | _ => (Except.ok Option.none, log)

/-- The full method call `self.filter(expression)` seen as a transition
on the receiver object: its return value paired with the receiver's
post-state.  The body of `Select.filter` (pivorm.py lines 309-337)
assigns only local variables, never a `self` field, so the post-state
is the pre-state. -/
def filterMethod (fuel : Nat) (db : Db) (s : SelectState) (e : Node) :
    ((Except String (Option SelectState)) × List String) × SelectState :=
  (filterEngine fuel db s e, s)

/-- `self.all()` as a transition on the receiver: lines 290-307 never
assign a `self` field. -/
def allMethod (fuel : Nat) (db : Db) (s : SelectState) :
    ((Except String (Option SelectState)) × List String) × SelectState :=
  (allS fuel db s, s)

/-- `self.get(expression)` as a transition on the receiver: lines
339-343 never assign a `self` field. -/
def getMethod (fuel : Nat) (db : Db) (s : SelectState) (e : Node) :
    ((Except String (Option PyVal)) × List String) × SelectState :=
  (getS fuel db s e, s)

/-- What reading an attribute off a model instance can produce: a value
from the instance's `_data` dict, the class-level `BaseField`
descriptor, the class-level `ForeignKey` object, or `AttributeError`. -/
inductive AttrResult where
  | val (v : PyVal)
  | fieldObj (f : FieldSpec)
  | fkObj (t : Model)
  | attrError

/-- `Table.__getattribute__` (pivorm.py lines 58-62): a key present in
`_data` wins; otherwise `object.__getattribute__` falls through to the
class attribute - a declared `BaseField` descriptor, the synthesized
bound `id` field, or a `ForeignKey` object.  (The remaining class
attributes - `db`, `objects`, methods - are outside the claims.) -/
def getattribute (m : Model) (data : List (String × PyVal)) (item : String) :
    AttrResult :=
  match data.lookup item with
  | some v => AttrResult.val v
  | Option.none =>
    match m.fieldsOf.find? (fun f => f.name == item) with
    | some f => AttrResult.fieldObj f
    | Option.none =>
      if item = "id" then
        AttrResult.fieldObj ⟨"id", "INTEGER", false, false, Option.none⟩
      else
        match lookupFk m item with
        | some t => AttrResult.fkObj t
        | Option.none => AttrResult.attrError

/-- Concatenation of a list of strings, used by the spec-side templates. -/
def concatAll : List String → String
  | [] => ""
  | s :: rest => s ++ concatAll rest

/-- The spec's LEFT JOIN template for one foreign key:
` LEFT JOIN n ON table.n_id = n.id`. -/
def joinClauseSpec (tbl n : String) : String :=
  " LEFT JOIN " ++ n ++ " ON " ++ tbl ++ "." ++ n ++ "_id = " ++ n ++ ".id"

/-- The spec's base SELECT template: `SELECT table.* FROM table`. -/
def baseSelectSpec (m : Model) : String :=
  "SELECT " ++ m.getName ++ ".* FROM " ++ m.getName

/-- Modelled from the claim's words (C6): a CREATE statement whose
column list is the synthesized `id INTEGER PRIMARY KEY` followed by the
declared fields in their declaration order, with each foreign key
contributing its `name_id INTEGER` column and a trailing FOREIGN KEY
table constraint.  Compared against `Model.getCreateSql`, which is
translated from the source. -/
def createSqlDeclOrder (m : Model) : String :=
  let cols := ["id INTEGER PRIMARY KEY"]
    ++ (membersOf m).map
      (fun mem =>
        match mem with
        | Member.fieldM f => String.intercalate " " (fieldRow f)
        | Member.fkM n _ => n ++ "_id INTEGER")
    ++ (membersOf m).filterMap
      (fun mem =>
        match mem with
        | Member.fkM n t =>
            some ("FOREIGN KEY (" ++ n ++ ") REFERENCES " ++ t.getName ++ "(id)")
        | Member.fieldM _ => Option.none)
  "CREATE TABLE IF NOT EXISTS " ++ m.getName ++ " ("
    ++ String.intercalate ", " cols ++ ")"

/-- The amended C6 rendering: like `createSqlDeclOrder` but with the
members in the alphabetical attribute-name order `inspect.getmembers`
actually yields. -/
def createSqlSortedSpec (m : Model) : String :=
  let cols := ["id INTEGER PRIMARY KEY"]
    ++ (sortMembers (membersOf m)).map
      (fun mem =>
        match mem with
        | Member.fieldM f => String.intercalate " " (fieldRow f)
        | Member.fkM n _ => n ++ "_id INTEGER")
    ++ (sortMembers (membersOf m)).filterMap
      (fun mem =>
        match mem with
        | Member.fkM n t =>
            some ("FOREIGN KEY (" ++ n ++ ") REFERENCES " ++ t.getName ++ "(id)")
        | Member.fieldM _ => Option.none)
  "CREATE TABLE IF NOT EXISTS " ++ m.getName ++ " ("
    ++ String.intercalate ", " cols ++ ")"

/-- Lookup in a reconstructed instance's `_data`. -/
def instLookup (v : PyVal) (k : String) : Option PyVal :=
  match v with
  | PyVal.inst _ data => data.lookup k
  | _ => Option.none

/-- The first instance of a returned cursor, `None`-safe. -/
def firstInst (r : (Except String (Option SelectState)) × List String) :
    Option PyVal :=
  match r.1 with
  | Except.ok (some sel) => headResult sel
  | _ => Option.none

/-- Discriminator: is the value a raw Python int? -/
def PyVal.isInt : PyVal → Bool
  | PyVal.int _ => true
  | _ => false

/-- Discriminator: is the value a model instance? -/
def PyVal.isInst : PyVal → Bool
  | PyVal.inst _ _ => true
  | _ => false

/-- Fixture: the repository's `Test` model (`test = TextField()`). -/
def TestM : Model := Model.mk "Test" [⟨"test", "TEXT", false, false, Option.none⟩] []

/-- Fixture: a storage collaborator whose table is empty. -/
def dbEmpty : Db := fun _ => []

/-- Fixture: the expression `Test.test == 'nope'`. -/
def eNope : Node := Node.eqE (Node.field "Test" "test") (PyVal.str "nope")

/-- Fixture: a model with no foreign keys of its own. -/
def GrandM : Model :=
  Model.mk "Grandparent" [⟨"name", "TEXT", false, false, Option.none⟩] []

/-- Fixture: a model with one foreign key to `GrandM`. -/
def ParM : Model := Model.mk "Parent" [] [("grandparent", GrandM)]

/-- Fixture: a model with one foreign key to `ParM`, giving a two-hop
foreign-key chain. -/
def ChildM : Model := Model.mk "Child" [] [("parent", ParM)]

/-- Leading-characters test, used by the storage fixtures to decide
which table a SELECT statement targets. -/
def charsStart : List Char → List Char → Bool
  | [], _ => true
  | _ :: _, [] => false
  | p :: ps, s :: ss => p == s && charsStart ps ss

/-- `s` starts with `pre`. -/
def strStarts (s pre : String) : Bool := charsStart pre.data s.data

/-- Fixture: a storage collaborator holding one child row referencing
parent 7, one parent row referencing grandparent 3, and one grandparent
row. -/
def c5db : Db := fun sql =>
  if strStarts sql "SELECT child" then [[PyVal.int 1, PyVal.int 7]]
  else if strStarts sql "SELECT parent" then [[PyVal.int 7, PyVal.int 3]]
  else if strStarts sql "SELECT grandparent" then [[PyVal.int 3, PyVal.str "g"]]
  else []

/-- Fixture: a model declaring `name` before `age`, so that declaration
order and alphabetical order differ. -/
def PetM : Model :=
  Model.mk "Pet"
    [⟨"name", "TEXT", false, false, Option.none⟩,
     ⟨"age", "INTEGER", false, false, Option.none⟩] []

/-- Accumulator-free form of the visitor walk: the text this subtree
contributes and the subtree after the walk.  `visit_renderP` proves it
equal to `SqlVisitor.visit`; proofs use this form because the appended
`self.sql` accumulator obscures induction. -/
def renderP : Node → String × Node
  | Node.field cls name => (cls ++ "." ++ name, Node.field cls name)
  | Node.value (PyVal.str s) =>
      ("'" ++ s ++ "'", Node.value (PyVal.str ("'" ++ s ++ "'")))
  | Node.value v => (pyStr v, Node.value v)
  | Node.wrapped n => (nodeRepr n, Node.wrapped n)
  | Node.expr l op r =>
      ("(" ++ (renderP l).1 ++ op ++ (renderP r).1 ++ ")",
        Node.expr (renderP l).2 op (renderP r).2)

/-- Fixture: the cursor value `Child.objects.filter(Child.id == 1)`
returns against `c5db` (extracted from the embedded run itself). -/
def c9sel : SelectState :=
  match (filterEngine 5 c5db (objects ChildM) (idEq ChildM (PyVal.int 1))).1 with
  | Except.ok (some sel) => sel
  | _ => objects ChildM

/-- Fixture: the cursor value `Parent.objects.filter(Parent.id == 7)`
returns against `c5db`. -/
def c5parentSel : SelectState :=
  match (filterEngine 4 c5db (objects ParM) (idEq ParM (PyVal.int 7))).1 with
  | Except.ok (some sel) => sel
  | _ => objects ParM

/-- Fixture: the tree for `Parent.name == 'x'`, which has a
string-valued `Value` leaf. -/
def c3tree : Node :=
  Node.eqE (Node.field "Parent" "name") (PyVal.str "x")

theorem strAppendAssoc (a b c : String) : a ++ b ++ c = a ++ (b ++ c) :=
  congrArg String.mk (List.append_assoc a.data b.data c.data)

theorem strAppendEmpty (s : String) : s ++ "" = s :=
  congrArg String.mk (List.append_nil s.data)

theorem strEmptyAppend (s : String) : "" ++ s = s :=
  congrArg String.mk (List.nil_append s.data)

/-- The visitor walk with accumulator `sql` is the accumulator-free walk
with `sql` prepended. -/
theorem visit_renderP (e : Node) : ∀ sql : String,
    SqlVisitor.visit sql e = (sql ++ (renderP e).1, (renderP e).2) := by
  induction e with
  | field cls name =>
      intro sql; simp [SqlVisitor.visit, renderP, strAppendAssoc]
  | value v =>
      intro sql; cases v <;> simp [SqlVisitor.visit, renderP, strAppendAssoc]
  | wrapped n =>
      intro sql; simp [SqlVisitor.visit, renderP]
  | expr l op r ihl ihr =>
      intro sql
      simp [SqlVisitor.visit, renderP, ihl, ihr, strAppendAssoc]

/-- Rendering with a fresh visitor equals the accumulator-free walk. -/
theorem render_eq (e : Node) : render e = (renderP e).1 := by
  rw [render, visit_renderP e ""]
  exact strEmptyAppend _

/-- A tree with no string-valued `Value` leaf is returned unchanged by
the walk. -/
theorem renderP_pure (e : Node) (h : noStrLeaf e = true) : (renderP e).2 = e := by
  induction e with
  | field cls name => rfl
  | value v => cases v <;> first | rfl | exact absurd h (by simp [noStrLeaf])
  | wrapped n _ => rfl
  | expr l op r ihl ihr =>
      rw [noStrLeaf, Bool.and_eq_true] at h
      simp [renderP, ihl h.1, ihr h.2]

/-- C2: for all expression nodes `a` and `b`, rendering `a AND b` yields
exactly `'(' ++ render a ++ ' AND ' ++ render b ++ ')'`: the binary node
is fully parenthesized, the operator token carries one space on each
side, operands are visited left then right, and the equation holds for
operand trees of arbitrary depth. -/
theorem c2_and_rendering (l1 l2 r1 r2 : Node) (o1 o2 : String) :
    render (Node.andE (Node.expr l1 o1 r1) (Node.expr l2 o2 r2))
      = "(" ++ render (Node.expr l1 o1 r1) ++ " AND "
        ++ render (Node.expr l2 o2 r2) ++ ")" := by
  simp [render_eq, Node.andE, Expression.init, renderP]

/-- C3 counterexample: rendering the tree for `Parent.name == 'x'` twice
with fresh visitors yields different text, because the first render
overwrites the string leaf with its quoted form; the claim's
"identical text both times, tree unmodified" fails on trees with
string-valued `Value` leaves. -/
theorem c3_counterexample :
    (SqlVisitor.visit "" c3tree).1 = "(Parent.name = 'x')"
    ∧ (SqlVisitor.visit "" ((SqlVisitor.visit "" c3tree).2)).1
        = "(Parent.name = ''x'')"
    ∧ (SqlVisitor.visit "" ((SqlVisitor.visit "" c3tree).2)).1
        ≠ (SqlVisitor.visit "" c3tree).1 :=
  ⟨rfl, rfl, by decide⟩

/-- C3 (amended): rendering is deterministic and pure for every tree
with no string-valued `Value` leaf: the walk returns the tree unchanged,
so a second render with a fresh visitor yields the identical text. -/
theorem c3_pure_rendering (e : Node) (h : noStrLeaf e = true) :
    (SqlVisitor.visit "" e).2 = e
    ∧ (SqlVisitor.visit "" ((SqlVisitor.visit "" e).2)).1
        = (SqlVisitor.visit "" e).1 := by
  have hp : (SqlVisitor.visit "" e).2 = e := by
    rw [visit_renderP e ""]; exact renderP_pure e h
  exact ⟨hp, by rw [hp]⟩

theorem c3_pure_rendering_witness :
    noStrLeaf (Node.eqE (Node.field "Parent" "age") (PyVal.int 1)) = true
    ∧ (SqlVisitor.visit ""
        (Node.eqE (Node.field "Parent" "age") (PyVal.int 1))).2
      = Node.eqE (Node.field "Parent" "age") (PyVal.int 1) :=
  ⟨by decide, (c3_pure_rendering _ (by decide)).1⟩

/-- C7 counterexample: `Parent.name.in_(["1", "2"])` renders as
`(Parent.name IN '(1, 2)')` - the parenthesized list, being a plain
Python string, passes through the string-value quoting rule and is
wrapped in single quotes, and the whole comparison is parenthesized -
not as the claim's unquoted `Parent.name IN (1, 2)`. -/
theorem c7_counterexample :
    render (Node.inOp (Node.field "Parent" "name") ["1", "2"])
        = "(Parent.name IN '(1, 2)')"
    ∧ render (Node.inOp (Node.field "Parent" "name") ["1", "2"])
        ≠ "Parent.name IN (1, 2)" :=
  ⟨rfl, by decide⟩

/-- C7 (amended): for every field and value list, `f.in_([v1, ..., vn])`
renders as the parenthesized comparison whose right side is the
comma-joined list, parenthesized and then single-quoted as one string
by the string-value rendering rule; no per-item quoting or escaping is
applied inside the list. -/
theorem c7_in_rendering (cls name : String) (vals : List String) :
    render (Node.inOp (Node.field cls name) vals)
      = "(" ++ cls ++ "." ++ name ++ " IN " ++ "'" ++ "("
        ++ String.intercalate ", " vals ++ ")" ++ "'" ++ ")" := by
  simp only [render_eq, Node.inOp, Expression.init, renderP, strAppendAssoc]

set_option maxRecDepth 10000

/-- C6 counterexample: `PetM` declares `name` before `age`, yet the
generated CREATE statement lists `age` before `name` - the alphabetical
order `inspect.getmembers` yields, not declaration order. -/
theorem c6_counterexample :
    PetM.getCreateSql
      = "CREATE TABLE IF NOT EXISTS pet (id INTEGER PRIMARY KEY, age INTEGER NOT NULL, name TEXT NOT NULL)"
    ∧ createSqlDeclOrder PetM
      = "CREATE TABLE IF NOT EXISTS pet (id INTEGER PRIMARY KEY, name TEXT NOT NULL, age INTEGER NOT NULL)"
    ∧ PetM.getCreateSql ≠ createSqlDeclOrder PetM :=
  ⟨rfl, rfl, by decide⟩

/-- C6 (amended): for every model, the CREATE statement is the
synthesized leading `id INTEGER PRIMARY KEY`, then the declared fields
and foreign-key `name_id INTEGER` columns in alphabetical order of
attribute name (the deterministic order reflection yields), then one
trailing FOREIGN KEY constraint per foreign key. -/
theorem c6_create_sorted_columns (m : Model) :
    m.getCreateSql = createSqlSortedSpec m := by
  have hfk : ∀ n : String,
      String.intercalate " " [n ++ "_id", "INTEGER"] = n ++ "_id INTEGER" := by
    intro n
    show (n ++ "_id") ++ " " ++ "INTEGER" = n ++ "_id INTEGER"
    simp [strAppendAssoc]
  have hcon : (fun mem => (match mem with
      | Member.fkM n t =>
          some ["FOREIGN KEY (" ++ n ++ ") REFERENCES " ++ t.getName ++ "(id)"]
      | Member.fieldM _ =>
          (Option.none : Option (List String))).map (String.intercalate " "))
      = (fun mem => match mem with
      | Member.fkM n t =>
          some ("FOREIGN KEY (" ++ n ++ ") REFERENCES " ++ t.getName ++ "(id)")
      | Member.fieldM _ => Option.none) := by
    funext mem; cases mem <;> rfl
  simp only [Model.getCreateSql, createSqlSortedSpec, Model.getFields,
    List.map_append, List.map_map, List.map_filterMap]
  rw [hcon]
  congr 3
  congr 1
  congr 1
  apply List.map_congr_left
  intro mem _
  cases mem with
  | fieldM f => rfl
  | fkM n t => exact hfk n

/-- C4: the code contradicts the claim (and its own dead empty-result
branch).  On a cursor whose filter matches zero rows - here the `Test`
model against an empty table - `filter` returns `None`, so `get`'s
attribute access `select.result` raises `AttributeError` instead of
returning the empty signal. -/
theorem c4_get_raises_on_zero_match :
    (filterEngine 5 dbEmpty (objects TestM) eNope).1 = Except.ok Option.none
    ∧ (getS 5 dbEmpty (objects TestM) eNope).1
        = Except.error "AttributeError: 'NoneType' object has no attribute 'result'" :=
  ⟨rfl, rfl⟩

/-- C9 counterexample: on a cursor over an empty table, `.all()` returns
the empty signal `None`, not a new Select value, so "calling .filter(),
.all(), or .get() returns a new Select value" fails as stated. -/
theorem c9_counterexample :
    (allS 5 dbEmpty (objects TestM)).1 = Except.ok Option.none :=
  rfl

theorem insertSorted_length (le : α → α → Bool) (x : α) :
    ∀ l : List α, (insertSorted le x l).length = l.length + 1 := by
  intro l
  induction l with
  | nil => rfl
  | cons y ys ih =>
      by_cases h : le x y = true
      · simp [insertSorted, h]
      · simp [insertSorted, h, ih]

theorem sortByB_length (le : α → α → Bool) :
    ∀ l : List α, (sortByB le l).length = l.length := by
  intro l
  induction l with
  | nil => rfl
  | cons x xs ih => simp [sortByB, insertSorted_length, ih]

/-- The source's join loop, which appends clause by clause onto the
accumulated SQL, equals the spec template's concatenated join list. -/
theorem addJoins_concat (tbl : String) :
    ∀ (ns : List String) (sql : String),
      addJoins tbl sql ns = sql ++ concatAll (ns.map (joinClauseSpec tbl)) := by
  intro ns
  induction ns with
  | nil => intro sql; simp [addJoins, concatAll, strAppendEmpty]
  | cons n rest ih =>
      intro sql
      simp [addJoins, concatAll, ih, joinClauseSpec, strAppendAssoc]

theorem endsWithId_append (n : String) : endsWithId (n ++ "_id") = true := by
  unfold endsWithId
  have h : (n ++ "_id").data = n.data ++ ['_', 'i', 'd'] := rfl
  rw [h, List.reverse_append]
  rfl

theorem dropRight3_append (n : String) : dropRight3 (n ++ "_id") = n := by
  unfold dropRight3
  have h : (n ++ "_id").data = n.data ++ ['_', 'i', 'd'] := rfl
  rw [h, List.length_append]
  have h2 : n.data.length + ['_', 'i', 'd'].length - 3 = n.data.length := by simp
  rw [h2]
  rw [List.take_left]

/-- C1: on a cursor whose WHERE text is non-empty, `filter(e)` assembles
exactly the base SELECT for the cursor's model, one LEFT JOIN clause per
declared ForeignKey (unconditionally, before the WHERE clause), and the
existing WHERE text extended with ` AND ` and the rendering of `e`;
with an empty WHERE text the WHERE clause is ` WHERE ` plus the
rendering; and the assembled text is the first SQL the call executes. -/
theorem c1_filter_sql (m : Model) (w0 : String) (e : Node) (fuel : Nat) (db : Db)
    (sql0 : String) (res : Option (List PyVal)) (h : w0 ≠ "") :
    (filterAssemble m w0 e).1
      = baseSelectSpec m
        ++ concatAll (((sortedFks m).map (fun p => p.1)).map (joinClauseSpec m.getName))
        ++ (w0 ++ " AND " ++ render e)
    ∧ (filterAssemble m "" e).1
      = baseSelectSpec m
        ++ concatAll (((sortedFks m).map (fun p => p.1)).map (joinClauseSpec m.getName))
        ++ (" WHERE " ++ render e)
    ∧ ((sortedFks m).map (fun p => p.1)).length = m.fksOf.length
    ∧ (filterEngine (fuel + 1) db ⟨m, sql0, w0, res⟩ e).2.head?
        = some (filterAssemble m w0 e).1 := by
  refine ⟨?_, ?_, ?_, ?_⟩
  · simp [filterAssemble, addJoins_concat, baseSelectSpec, h, strAppendAssoc]
  · simp [filterAssemble, addJoins_concat, baseSelectSpec, strAppendAssoc]
  · simp [sortedFks, sortByB_length]
  · simp only [filterEngine]
    cases hrec : reconstructRows
        (fun t v => filterEngine fuel db (objects t) (idEq t v))
        (SelectState.model ⟨m, sql0, w0, res⟩)
        (fieldsNameOf (SelectState.model ⟨m, sql0, w0, res⟩))
        (db (filterAssemble (SelectState.model ⟨m, sql0, w0, res⟩)
          (SelectState.whereStr ⟨m, sql0, w0, res⟩) e).1) with
    | mk r log =>
        cases r with
        | error err => simp [hrec]
        | ok l => cases l with
          | nil => simp [hrec]
          | cons i is => simp [hrec]

theorem c1_filter_sql_witness :
    (" WHERE x" : String) ≠ ""
    ∧ (filterEngine 1 dbEmpty ⟨TestM, "", " WHERE x", Option.none⟩ eNope).2.head?
        = some (filterAssemble TestM " WHERE x" eNope).1 :=
  ⟨by decide,
    (c1_filter_sql TestM " WHERE x" eNope 0 dbEmpty "" Option.none (by decide)).2.2.2⟩

/-- C5 counterexample: against `c5db`, reconstructing the child row
dereferences `parent_id` into a `Parent` instance whose own
`grandparent` column holds a full `Grandparent` instance - not the raw
integer 3 the claim's "no transitive eager loading" requires. -/
theorem c5_counterexample :
    ((firstInst (filterEngine 5 c5db (objects ChildM) (idEq ChildM (PyVal.int 1)))).bind
        (fun i => instLookup i "parent")).bind (fun i => instLookup i "grandparent")
      = some (PyVal.inst "Grandparent" [("id", PyVal.int 3), ("name", PyVal.str "g")])
    ∧ (((firstInst (filterEngine 5 c5db (objects ChildM) (idEq ChildM (PyVal.int 1)))).bind
        (fun i => instLookup i "parent")).bind
          (fun i => instLookup i "grandparent")).map PyVal.isInt
      = some false :=
  ⟨rfl, rfl⟩

/-- C5 (amended): a column `name_id` carrying value `v` is replaced by
the first element of `fk.table.objects.filter(fk.table.id == v)` - the
same embedded `filter`, which reconstructs its own rows through
`get_fk_table` again, so the dereference recurses into the related
record's foreign keys instead of leaving them as raw integers. -/
theorem c5_deref_uses_filter (fuel : Nat) (db : Db) (m t : Model) (name : String)
    (v : PyVal) (sel : SelectState) (i : PyVal)
    (hfk : lookupFk m name = some t)
    (h1 : (filterEngine fuel db (objects t) (idEq t v)).1 = Except.ok (some sel))
    (h2 : headResult sel = some i) :
    getFkRow (fun t2 v2 => filterEngine fuel db (objects t2) (idEq t2 v2)) m
        [(name ++ "_id", v)]
      = (Except.ok [(name, i)],
          (filterEngine fuel db (objects t) (idEq t v)).2) := by
  cases hfe : filterEngine fuel db (objects t) (idEq t v) with
  | mk r log =>
      rw [hfe] at h1
      simp only at h1
      subst h1
      simp [getFkRow, endsWithId_append, dropRight3_append, hfk, hfe, h2]

theorem c5_deref_uses_filter_witness :
    getFkRow (fun t2 v2 => filterEngine 4 c5db (objects t2) (idEq t2 v2)) ChildM
        [("parent" ++ "_id", PyVal.int 7)]
      = (Except.ok [("parent",
          PyVal.inst "Parent" [("id", PyVal.int 7),
            ("grandparent", PyVal.inst "Grandparent"
              [("id", PyVal.int 3), ("name", PyVal.str "g")])])],
          (filterEngine 4 c5db (objects ParM) (idEq ParM (PyVal.int 7))).2) :=
  c5_deref_uses_filter 4 c5db ChildM ParM "parent" (PyVal.int 7) c5parentSel
    (PyVal.inst "Parent" [("id", PyVal.int 7),
      ("grandparent", PyVal.inst "Grandparent"
        [("id", PyVal.int 3), ("name", PyVal.str "g")])])
    rfl rfl rfl

/-- C8: `.all()` on a cursor whose result list is materialized and
non-empty returns a cursor with the identical model, SQL text, WHERE
text and result list, and executes nothing against the storage
collaborator (the executed-statement log is empty). -/
theorem c8_all_idempotent (fuel : Nat) (db : Db) (s : SelectState)
    (x : PyVal) (xs : List PyVal) (h : s.result = some (x :: xs)) :
    allS fuel db s = (Except.ok (some s), []) := by
  have he : (⟨s.model, s.sql, s.whereStr, some (x :: xs)⟩ : SelectState) = s := by
    rw [← h]
  simp [allS, h, he]

theorem c8_all_idempotent_witness :
    allS 3 dbEmpty ⟨TestM, "s", "w", some [PyVal.int 1]⟩
      = (Except.ok (some ⟨TestM, "s", "w", some [PyVal.int 1]⟩), []) :=
  c8_all_idempotent 3 dbEmpty ⟨TestM, "s", "w", some [PyVal.int 1]⟩
    (PyVal.int 1) [] rfl

/-- C9 (amended): `filter`, `all` and `get` leave every field of the
receiver cursor unchanged (their bodies assign no `self` field), and a
sibling `filter` chained from the same base cursor builds its WHERE
clause from the receiver's own WHERE text and its own expression only,
so sibling queries cannot contaminate each other; on zero matching rows
`filter`/`all` return the empty signal `None` instead of a Select. -/
theorem c9_frame (fuel : Nat) (db : Db) (s : SelectState) (e1 e2 : Node)
    (sel : SelectState)
    (h : (filterEngine fuel db s e2).1 = Except.ok (some sel)) :
    (filterMethod fuel db s e1).2 = s
    ∧ (allMethod fuel db s).2 = s
    ∧ (getMethod fuel db s e1).2 = s
    ∧ sel.whereStr = (filterAssemble s.model s.whereStr e2).2 := by
  refine ⟨rfl, rfl, rfl, ?_⟩
  cases fuel with
  | zero => exact absurd h (by simp [filterEngine])
  | succ n =>
      simp only [filterEngine] at h
      cases hrec : reconstructRows
          (fun t v => filterEngine n db (objects t) (idEq t v))
          s.model (fieldsNameOf s.model)
          (db (filterAssemble s.model s.whereStr e2).1) with
      | mk r log =>
          rw [hrec] at h
          cases r with
          | error err => simp at h
          | ok l => cases l with
            | nil => simp at h
            | cons i is =>
                simp only at h
                injection h with h3
                injection h3 with h4
                rw [← h4]

theorem c9_frame_witness :
    (filterMethod 5 c5db (objects ChildM) (idEq ChildM (PyVal.int 1))).2
        = objects ChildM
    ∧ c9sel.whereStr
        = (filterAssemble ChildM "" (idEq ChildM (PyVal.int 1))).2 := by
  have hc := c9_frame 5 c5db (objects ChildM) (idEq ChildM (PyVal.int 1))
    (idEq ChildM (PyVal.int 1)) c9sel rfl
  exact ⟨hc.1, hc.2.2.2⟩

/-- C10: reading an attribute whose name is a key of the instance's
`_data` returns the stored value, shadowing any class-level field
descriptor of the same name; reading a declared field name that is not
in `_data` returns the class-level `BaseField` descriptor object
itself, never the missing-value signal `None`. -/
theorem c10_getattribute (m : Model) (data : List (String × PyVal)) (item : String) :
    (∀ v, data.lookup item = some v → getattribute m data item = AttrResult.val v)
    ∧ (data.lookup item = Option.none →
        ∀ f, m.fieldsOf.find? (fun g => g.name == item) = some f →
          getattribute m data item = AttrResult.fieldObj f
          ∧ getattribute m data item ≠ AttrResult.val PyVal.noneV) := by
  constructor
  · intro v hv
    simp [getattribute, hv]
  · intro hnone f hf
    constructor
    · simp [getattribute, hnone, hf]
    · simp [getattribute, hnone, hf]

theorem c10_getattribute_witness :
    getattribute PetM [("id", PyVal.noneV), ("name", PyVal.str "a")] "name"
        = AttrResult.val (PyVal.str "a")
    ∧ getattribute PetM [("id", PyVal.noneV)] "age"
        = AttrResult.fieldObj ⟨"age", "INTEGER", false, false, Option.none⟩ :=
  ⟨(c10_getattribute PetM [("id", PyVal.noneV), ("name", PyVal.str "a")] "name").1
      (PyVal.str "a") rfl,
    ((c10_getattribute PetM [("id", PyVal.noneV)] "age").2 rfl
      ⟨"age", "INTEGER", false, false, Option.none⟩ rfl).1⟩

end Pivorm
